import Mathlib

/-!
Verification of the nidonino customization-requests backend.

The development shallowly embeds the two Express servers of the repository
(`src/server.js`, OAuth-based, and the static-token variant in
`src/unnamed/part_000`) as pure Lean functions over explicit request,
environment, token-store and platform-response values, and settles the
behavioural claims about them.

Modelling conventions:
* JavaScript `undefined` / missing values become `Option`; JS string
  truthiness (`!s`, which treats both `undefined` and `""` as falsy) is
  `truthyS`.
* `fetch` / `res.json()` results arrive as `Except String _` inputs:
  `.error e` is an exception thrown inside the `try` block and caught by
  the handler's `catch`.
* Query strings are association lists from keys to string values (Express's
  query parser yields one string per non-repeated key).
* `crypto.createHmac("sha256", secret).update(m).digest("hex")` is an
  abstract `digest : String → String → String` parameter; theorems that
  depend on the output length take the hypothesis
  `(digest s m).utf8ByteSize = 64`, the length of a hex SHA-256 digest.
  `crypto.timingSafeEqual(a, b)` throws a `RangeError` when the byte
  lengths of `a` and `b` differ and otherwise returns byte equality, which
  for UTF-8 encoded strings coincides with string equality.
* `JSON.stringify` and `JSON.parse` are mutually inverse on the plain JSON
  token objects the server writes, so the token file is modelled as holding
  the token object itself, and the `.data` directory as a map from paths to
  stored objects.
-/

/-- JS truthiness of a possibly-absent string: `undefined` and `""` are falsy. -/
def truthyS : Option String → Bool
  | none => false
  | some s => s ≠ ""

/-- JS `a || b` for a possibly-absent string `a` and a string default `b`. -/
def jsOrS (a : Option String) (b : String) : String :=
  match a with
  | none => b
  | some s => if s = "" then b else s

/-- JS template interpolation of a possibly-absent string: `${undefined}` is
`"undefined"`. -/
def interp : Option String → String
  | none => "undefined"
  | some s => s

/-- First value bound to a key in a query association list (Express query
objects have one value per key). -/
def qlookup (q : List (String × String)) (k : String) : Option String :=
  (q.find? (fun kv => kv.1 = k)).map (·.2)

/-- Insert a string into an already sorted list of strings. -/
def insertSorted (x : String) : List String → List String
  | [] => [x]
  | y :: ys => if x ≤ y then x :: y :: ys else y :: insertSorted x ys

/-- JavaScript's `Object.keys(o).sort()`: the keys in ascending
lexicographic order (insertion sort, structurally recursive). -/
def sortStrings : List String → List String
  | [] => []
  | x :: xs => insertSorted x (sortStrings xs)

/-! ## Token storage (`src/server.js` lines 19–32) -/

/-- The token object the server persists: a flat JSON object of (possibly
absent) string fields. -/
structure Token where
  shop : Option String
  access_token : Option String
  scope : Option String
  created_at : Option String
deriving Repr, DecidableEq

/-- `TOKEN_PATH = path.join(path.join(__dirname, ".data"), "token.json")`,
written relative to the server directory: a single fixed path. -/
def TOKEN_PATH : String := ".data/token.json"

/-- The file system visible to the token store: a map from paths to the JSON
token objects stored there (serialisation abstracted away, see header). -/
def FileStore := String → Option Token

/-- `saveToken`: write the token object (as JSON) at the fixed `TOKEN_PATH`,
creating the directory if needed and overwriting any previous content. -/
def saveToken (tokenObj : Token) (fs : FileStore) : FileStore :=
  fun p => if p = TOKEN_PATH then some tokenObj else fs p

/-- `loadToken`: `null` if the file does not exist, else the parsed object. -/
def loadToken (fs : FileStore) : Option Token :=
  fs TOKEN_PATH

/-- A file system in which no token was ever saved. -/
def emptyStore : FileStore := fun _ => none

/-! ## HMAC verification helpers (`src/server.js` lines 42–71) -/

/-- `verifyHmac(query, secret)` from `src/server.js`.  `digest` stands for
`crypto.createHmac("sha256", secret).update(message).digest("hex")`.
The result is `.ok b` when the function returns the boolean `b` and
`.error e` when `crypto.timingSafeEqual` throws because the two buffers
have different byte lengths. -/
def verifyHmac (digest : String → String → String)
    (query : List (String × String)) (secret : String) : Except String Bool :=
  match qlookup query "hmac" with
  | none => .ok false
  | some h =>
    if h = "" then .ok false
    else
      let rest := query.filter (fun kv => kv.1 ≠ "hmac")
      let message := String.intercalate "&"
        ((sortStrings (rest.map Prod.fst).eraseDups).map
          (fun k => k ++ "=" ++ interp (qlookup rest k)))
      let d := digest secret message
      if d.utf8ByteSize = h.utf8ByteSize then .ok (d = h)
      else .error "RangeError: Input buffers must have the same byte length"

/-- `verifyAppProxy(req, secret)` from `src/server.js`.  The secret is the
(possibly absent) `API_SECRET` environment variable; `crypto.createHmac`
throws when its key is `undefined`, hence the `.error` case. -/
def verifyAppProxy (digest : String → String → String)
    (query : List (String × String)) (secret : Option String) :
    Except String Bool :=
  match qlookup query "signature" with
  | none => .ok false
  | some s =>
    if s = "" then .ok false
    else
      match secret with
      | none => .error "TypeError: The key argument must be of type string"
      | some sec =>
        let q := query.filter (fun kv => kv.1 ≠ "signature")
        let message := String.join
          ((sortStrings (q.map Prod.fst).eraseDups).map
            (fun k => k ++ "=" ++ interp (qlookup q k)))
        .ok (digest sec message = s)

/-! ## OAuth callback (`src/server.js` lines 102–144) -/

/-- The environment variables the callback reads. -/
structure CallbackEnv where
  API_SECRET : Option String
  API_KEY : Option String
  HOST : Option String
  SHOP : Option String
deriving Repr, DecidableEq

/-- Outcome of the token-exchange `fetch` plus `tokenResp.json()`: the `ok`
flag of the response, the fields read off `tokenJson`, and
`JSON.stringify(tokenJson)` (used verbatim in the failure message). -/
structure TokenExchange where
  ok : Bool
  access_token : Option String
  scope : Option String
  stringified : String
deriving Repr, DecidableEq

/-- What `/auth/callback` sends back, together with the file system after
the handler ran. -/
structure CallbackResult where
  status : Nat
  text : String
  store : FileStore

/-- The `/auth/callback` handler.  `exchange` is the outcome of the
token-exchange call (`.error` = `fetch`/`json()` threw, caught by the
handler's `catch`); `now` is `new Date().toISOString()`. -/
def authCallback (env : CallbackEnv) (digest : String → String → String)
    (query : List (String × String)) (exchange : Except String TokenExchange)
    (now : String) (fs : FileStore) : CallbackResult :=
  if !(truthyS env.API_SECRET && truthyS env.API_KEY
        && truthyS env.HOST && truthyS env.SHOP) then
    { status := 500, text := "Missing env vars for OAuth", store := fs }
  else
    match verifyHmac digest query (env.API_SECRET.getD "") with
    | .error e => { status := 500, text := "Server error: " ++ e, store := fs }
    | .ok false => { status := 400, text := "HMAC verification failed", store := fs }
    | .ok true =>
      let shop := qlookup query "shop"
      let code := qlookup query "code"
      if !(truthyS shop && truthyS code) then
        { status := 400, text := "Missing shop or code", store := fs }
      else
        match exchange with
        | .error e => { status := 500, text := "Server error: " ++ e, store := fs }
        | .ok t =>
          if !t.ok then
            { status := 400, text := "Token exchange failed: " ++ t.stringified,
              store := fs }
          else
            { status := 200,
              text := "✅ App installed and token saved. You can close this tab.",
              store := saveToken
                { shop := shop, access_token := t.access_token,
                  scope := t.scope, created_at := some now } fs }

/-! ## Request body and draft-order data model (both proxy handlers) -/

/-- `req.body.product`. -/
structure ProductData where
  title : Option String
  url : Option String
deriving Repr, DecidableEq

/-- `req.body.customer`; `logged_in` is the truthiness of
`customer.logged_in`. -/
structure CustomerData where
  logged_in : Bool
  first_name : Option String
  last_name : Option String
  email : Option String
deriving Repr, DecidableEq

/-- The JSON request body; a missing/falsy `req.body` is `none` at the outer
level (`req.body || {}`). -/
structure ReqBody where
  phone : Option String
  product : Option ProductData
  customer : Option CustomerData
deriving Repr, DecidableEq

/-- `{ key, value }` entries of `customAttributes`. -/
structure CustomAttribute where
  key : String
  value : String
deriving Repr, DecidableEq

/-- One element of `draftInput.lineItems`. -/
structure LineItem where
  title : String
  quantity : Nat
  originalUnitPrice : String
  customAttributes : List CustomAttribute
deriving Repr, DecidableEq

/-- The `draftOrderCreate` input object; `email` is present exactly when the
handler attached it. -/
structure DraftInput where
  tags : List String
  note : String
  lineItems : List LineItem
  email : Option String
deriving Repr, DecidableEq

/-- The GraphQL document template literal (identical in both source files). -/
def draftOrderCreateQuery : String :=
  "\n      mutation draftOrderCreate($input: DraftOrderInput!) \x7b\n        draftOrderCreate(input: $input) \x7b\n          draftOrder \x7b id name \x7d\n          userErrors \x7b field message \x7d\n        \x7d\n      \x7d\n    "

/-- One outbound `fetch` to the platform's GraphQL endpoint: URL, the
`X-Shopify-Access-Token` header, the GraphQL document and its variables. -/
structure GraphQLCall where
  url : String
  accessToken : String
  query : String
  input : DraftInput
deriving Repr, DecidableEq

/-- An entry of `userErrors { field message }`. -/
structure UserError where
  field : Option (List String)
  message : String
deriving Repr, DecidableEq

/-- `draftOrder { id name }` of the platform's response. -/
structure DraftOrderRef where
  id : Option String
  name : Option String
deriving Repr, DecidableEq

/-- `json.data.draftOrderCreate` of the platform's response. -/
structure DraftOrderCreatePayload where
  draftOrder : Option DraftOrderRef
  userErrors : Option (List UserError)
deriving Repr, DecidableEq

/-- `json.data` of the platform's response. -/
structure PlatformData where
  draftOrderCreate : Option DraftOrderCreatePayload
deriving Repr, DecidableEq

/-- The parsed platform response body (`await resp.json()`). -/
structure PlatformJson where
  data : Option PlatformData
deriving Repr, DecidableEq

/-- The JSON bodies the proxy handlers send. -/
inductive RespBody where
  | errorOnly (error : String)
  | errorRaw (error : String) (raw : List UserError)
  | errorDetails (error : String) (details : String)
  | success (ok : Bool) (draft_name : Option String)
deriving Repr, DecidableEq

/-- Status, JSON body, and the outbound GraphQL calls the handler issued. -/
structure ProxyResult where
  status : Nat
  body : RespBody
  calls : List GraphQLCall
deriving Repr, DecidableEq

/-- Forget the `raw` echo of the user-error response (the only field of the
submission path present in `server.js` but not in `part_000`). -/
def RespBody.stripRaw : RespBody → RespBody
  | .errorRaw m _ => .errorOnly m
  | b => b

/-! ## The submission handler of `src/server.js` (lines 146–226) -/

/-- The environment variables the `server.js` proxy handler reads.
`API_VER` is the raw variable; the handler applies the
`process.env.API_VER || "2025-04"` default. -/
structure ProxyEnv where
  VERIFY_PROXY : Option String
  API_SECRET : Option String
  API_VER : Option String
deriving Repr, DecidableEq

/-- The last note line of `server.js`:
`isLoggedIn ? \x60Customer: ...\x60 : "Customer: Guest (not logged in)"`.
When `isLoggedIn` holds, `customer` is necessarily present (the default is
unreachable). -/
def customerNoteLine_server (customer : Option CustomerData)
    (isLoggedIn : Bool) : String :=
  if isLoggedIn then
    let c := customer.getD ⟨false, none, none, none⟩
    "Customer: " ++ (jsOrS c.first_name "").trim ++ " "
      ++ (jsOrS c.last_name "").trim ++ " | " ++ jsOrS c.email ""
  else
    "Customer: Guest (not logged in)"

/-- `noteLines` and `draftInput` of `server.js` (lines 165–195), including
the conditional `draftInput.email` assignment. -/
def buildDraftInput_server (phone : Option String) (product : ProductData)
    (customer : Option CustomerData) : DraftInput :=
  let isLoggedIn := match customer with
    | none => false
    | some c => c.logged_in
  let noteLines : List String :=
    [ "Customization request"
    , "Product: " ++ interp product.title
    , "Link: " ++ interp product.url
    , "Phone: " ++ interp phone
    , customerNoteLine_server customer isLoggedIn ]
  let email := customer.bind CustomerData.email
  { tags := ["Customization request"]
  , note := String.intercalate "\n" noteLines
  , lineItems :=
      [ { title := "Customization request - " ++ interp product.title
        , quantity := 1
        , originalUnitPrice := "0.00"
        , customAttributes :=
            [ ⟨"Type", "Customization request"⟩
            , ⟨"Product", interp product.title⟩
            , ⟨"Product URL", interp product.url⟩
            , ⟨"Phone", interp phone⟩ ] } ]
  , email := if isLoggedIn && truthyS email then email else none }

/-- `server.js` lines 155–225: the handler body after the app-proxy gate
(token load, validation, the GraphQL call, response mapping). -/
def customizationRequestCore_server (env : ProxyEnv) (fs : FileStore)
    (body : Option ReqBody) (platform : Except String PlatformJson) :
    ProxyResult :=
  let tok := loadToken fs
  if !truthyS (tok.bind Token.access_token) then
    ⟨401, .errorOnly "App not installed / token missing. Visit /auth once.", []⟩
  else
    let t := tok.getD ⟨none, none, none, none⟩
    let b := body.getD ⟨none, none, none⟩
    if !truthyS b.phone || !truthyS (b.product.bind ProductData.title)
        || !truthyS (b.product.bind ProductData.url) then
      ⟨400, .errorOnly "Missing phone or product data", []⟩
    else
      let product := b.product.getD ⟨none, none⟩
      let draftInput := buildDraftInput_server b.phone product b.customer
      let call : GraphQLCall :=
        { url := "https://" ++ interp t.shop ++ "/admin/api/"
            ++ jsOrS env.API_VER "2025-04" ++ "/graphql.json"
        , accessToken := t.access_token.getD ""
        , query := draftOrderCreateQuery
        , input := draftInput }
      match platform with
      | .error e => ⟨500, .errorDetails "Server error" e, [call]⟩
      | .ok json =>
        match json.data.bind PlatformData.draftOrderCreate with
        | some p =>
          match p.userErrors with
          | some (e :: es) => ⟨400, .errorRaw e.message (e :: es), [call]⟩
          | some [] => ⟨200, .success true (p.draftOrder.bind DraftOrderRef.name), [call]⟩
          | none => ⟨200, .success true (p.draftOrder.bind DraftOrderRef.name), [call]⟩
        | none => ⟨200, .success true none, [call]⟩

/-- The full `server.js` `/proxy/customization-request` handler, including
the opt-in app-proxy signature gate (lines 149–153).  Returns the response
together with the file system after handling (the handler performs no
writes). -/
def customizationRequest_server (env : ProxyEnv)
    (digest : String → String → String) (query : List (String × String))
    (body : Option ReqBody) (fs : FileStore)
    (platform : Except String PlatformJson) : ProxyResult × FileStore :=
  if env.VERIFY_PROXY = some "true" then
    match verifyAppProxy digest query env.API_SECRET with
    | .error e => (⟨500, .errorDetails "Server error" e, []⟩, fs)
    | .ok false => (⟨401, .errorOnly "Invalid proxy signature", []⟩, fs)
    | .ok true => (customizationRequestCore_server env fs body platform, fs)
  else
    (customizationRequestCore_server env fs body platform, fs)

/-! ## The submission handler of `src/unnamed/part_000` (lines 21–97) -/

/-- The environment variables of the static-token variant. -/
structure StaticEnv where
  SHOP : Option String
  ADMIN_TOKEN : Option String
deriving Repr, DecidableEq

/-- The last note line of `part_000` (textually identical to `server.js`). -/
def customerNoteLine_part000 (customer : Option CustomerData)
    (isLoggedIn : Bool) : String :=
  if isLoggedIn then
    let c := customer.getD ⟨false, none, none, none⟩
    "Customer: " ++ (jsOrS c.first_name "").trim ++ " "
      ++ (jsOrS c.last_name "").trim ++ " | " ++ jsOrS c.email ""
  else
    "Customer: Guest (not logged in)"

/-- `noteLines` and `draftInput` of `part_000` (lines 34–66), including the
conditional `draftInput.email` assignment. -/
def buildDraftInput_part000 (phone : Option String) (product : ProductData)
    (customer : Option CustomerData) : DraftInput :=
  let isLoggedIn := match customer with
    | none => false
    | some c => c.logged_in
  let noteLines : List String :=
    [ "Customization request"
    , "Product: " ++ interp product.title
    , "Link: " ++ interp product.url
    , "Phone: " ++ interp phone
    , customerNoteLine_part000 customer isLoggedIn ]
  let email := customer.bind CustomerData.email
  { tags := ["Customization request"]
  , note := String.intercalate "\n" noteLines
  , lineItems :=
      [ { title := "Customization request - " ++ interp product.title
        , quantity := 1
        , originalUnitPrice := "0.00"
        , customAttributes :=
            [ ⟨"Type", "Customization request"⟩
            , ⟨"Product", interp product.title⟩
            , ⟨"Product URL", interp product.url⟩
            , ⟨"Phone", interp phone⟩ ] } ]
  , email := if isLoggedIn && truthyS email then email else none }

/-- The `part_000` `/proxy/customization-request` handler (static admin
token, env-var gate instead of a token store, no `raw` field in the
user-error response). -/
def customizationRequest_part000 (env : StaticEnv) (body : Option ReqBody)
    (platform : Except String PlatformJson) : ProxyResult :=
  if !truthyS env.SHOP || !truthyS env.ADMIN_TOKEN then
    ⟨500, .errorOnly "Missing SHOP or ADMIN_TOKEN env vars", []⟩
  else
    let b := body.getD ⟨none, none, none⟩
    if !truthyS b.phone || !truthyS (b.product.bind ProductData.title)
        || !truthyS (b.product.bind ProductData.url) then
      ⟨400, .errorOnly "Missing phone or product data", []⟩
    else
      let product := b.product.getD ⟨none, none⟩
      let draftInput := buildDraftInput_part000 b.phone product b.customer
      let call : GraphQLCall :=
        { url := "https://" ++ interp env.SHOP ++ "/admin/api/2025-04/graphql.json"
        , accessToken := env.ADMIN_TOKEN.getD ""
        , query := draftOrderCreateQuery
        , input := draftInput }
      match platform with
      | .error e => ⟨500, .errorDetails "Server error" e, [call]⟩
      | .ok json =>
        match json.data.bind PlatformData.draftOrderCreate with
        | some p =>
          match p.userErrors with
          | some (e :: _es) => ⟨400, .errorOnly e.message, [call]⟩
          | some [] => ⟨200, .success true (p.draftOrder.bind DraftOrderRef.name), [call]⟩
          | none => ⟨200, .success true (p.draftOrder.bind DraftOrderRef.name), [call]⟩
        | none => ⟨200, .success true none, [call]⟩

/-! ## Shared concrete material for witnesses -/

/-- A stand-in for the hex HMAC-SHA256 digest: a fixed 64-character hex
string, matching the length of every real hex SHA-256 digest. -/
def digestStub : String → String → String :=
  fun _ _ => "0000000000000000000000000000000000000000000000000000000000000000"

lemma digestStub_utf8ByteSize (s m : String) :
    (digestStub s m).utf8ByteSize = 64 := rfl

/-- A sample stored token with a non-empty access token. -/
def sampleToken : Token :=
  { shop := some "a0pyr1-ce.myshopify.com"
  , access_token := some "shpat_sample"
  , scope := some "write_draft_orders,read_customers"
  , created_at := some "2025-01-01T00:00:00.000Z" }

/-- A sample valid request body (guest customer). -/
def sampleBody : ReqBody :=
  { phone := some "+201000000000"
  , product := some { title := some "Ring", url := some "https://shop/p/ring" }
  , customer := none }

/-! ## Claims -/

/-- **C3**: the token store holds at most one token: `saveToken` writes the
object at the single fixed `TOKEN_PATH` and touches no other path,
overwriting any previous token; `loadToken` after `saveToken t` returns
`t`, and `loadToken` with no prior save returns `null`. -/
theorem saveToken_loadToken_single_store (t t' : Token) (fs : FileStore)
    (p : String) :
    loadToken (saveToken t fs) = some t
      ∧ loadToken emptyStore = none
      ∧ saveToken t fs p = (if p = TOKEN_PATH then some t else fs p)
      ∧ saveToken t (saveToken t' fs) = saveToken t fs := by
  refine ⟨rfl, rfl, rfl, ?_⟩
  funext q
  by_cases h : q = TOKEN_PATH <;> simp [saveToken, h]

/-- The handler core never produces the proxy-signature rejection body. -/
lemma core_server_no_invalid_sig_body (env : ProxyEnv) (fs : FileStore)
    (body : Option ReqBody) (platform : Except String PlatformJson) :
    (customizationRequestCore_server env fs body platform).body
      ≠ RespBody.errorOnly "Invalid proxy signature" := by
  unfold customizationRequestCore_server
  intro h
  repeat' split at h
  all_goals dsimp only at h
  all_goals split_ifs at h <;> simp_all

/-- **C10**: the `/proxy/customization-request` handler answers
`401 {error: "Invalid proxy signature"}` exactly when `VERIFY_PROXY` is the
string `"true"` and `verifyAppProxy` returns `false`; for any other value of
`VERIFY_PROXY` the handler's behaviour does not depend on the query or the
signature at all. -/
theorem verify_proxy_opt_in (env : ProxyEnv)
    (digest digest' : String → String → String)
    (query query' : List (String × String)) (body : Option ReqBody)
    (fs : FileStore) (platform : Except String PlatformJson) :
    (((customizationRequest_server env digest query body fs platform).1.status = 401
        ∧ (customizationRequest_server env digest query body fs platform).1.body
            = RespBody.errorOnly "Invalid proxy signature")
      ↔ (env.VERIFY_PROXY = some "true"
          ∧ verifyAppProxy digest query env.API_SECRET = .ok false))
    ∧ (env.VERIFY_PROXY ≠ some "true" →
        customizationRequest_server env digest query body fs platform
          = customizationRequest_server env digest' query' body fs platform) := by
  constructor
  · unfold customizationRequest_server
    by_cases hv : env.VERIFY_PROXY = some "true"
    · simp only [hv, if_pos]
      cases hap : verifyAppProxy digest query env.API_SECRET with
      | error e => simp
      | ok b =>
        cases b with
        | false => simp
        | true =>
          simp only []
          constructor
          · rintro ⟨-, hbody⟩
            exact absurd hbody (core_server_no_invalid_sig_body env fs body platform)
          · rintro ⟨-, h⟩
            exact absurd h (by simp)
    · rw [if_neg hv]
      constructor
      · rintro ⟨-, hbody⟩
        exact absurd hbody (core_server_no_invalid_sig_body env fs body platform)
      · rintro ⟨h, -⟩
        exact absurd h hv
  · intro hv
    unfold customizationRequest_server
    simp [hv]

/-- Witness for `verify_proxy_opt_in` at a concrete configuration with
`VERIFY_PROXY` unset: the handler ignores the query and the signature. -/
theorem verify_proxy_opt_in_witness :
    customizationRequest_server ⟨none, none, none⟩ digestStub []
        (some sampleBody) (saveToken sampleToken emptyStore) (.error "boom")
      = customizationRequest_server ⟨none, none, none⟩ (fun _ _ => "x")
          [("signature", "zzz")] (some sampleBody)
          (saveToken sampleToken emptyStore) (.error "boom") :=
  (verify_proxy_opt_in ⟨none, none, none⟩ digestStub (fun _ _ => "x") []
      [("signature", "zzz")] (some sampleBody) (saveToken sampleToken emptyStore)
      (.error "boom")).2 (by decide)

/-- **C6**: with the proxy gate passed, a missing stored token, or one whose
`access_token` is absent or empty, makes the handler answer 401 with the
message directing the operator to `/auth`, issuing no outbound call. -/
theorem missing_token_401 (env : ProxyEnv) (digest : String → String → String)
    (query : List (String × String)) (body : Option ReqBody) (fs : FileStore)
    (platform : Except String PlatformJson)
    (hgate : env.VERIFY_PROXY ≠ some "true"
      ∨ verifyAppProxy digest query env.API_SECRET = .ok true)
    (htok : truthyS ((loadToken fs).bind Token.access_token) = false) :
    (customizationRequest_server env digest query body fs platform).1
      = ⟨401, .errorOnly "App not installed / token missing. Visit /auth once.", []⟩ := by
  unfold customizationRequest_server customizationRequestCore_server
  rcases hgate with hv | hap
  · rw [if_neg hv]
    simp [htok]
  · by_cases hv : env.VERIFY_PROXY = some "true"
    · rw [if_pos hv, hap]
      simp [htok]
    · rw [if_neg hv]
      simp [htok]

/-- Witness for `missing_token_401`: empty store, valid body. -/
theorem missing_token_401_witness :
    (customizationRequest_server ⟨none, none, none⟩ digestStub []
        (some sampleBody) emptyStore (.error "boom")).1
      = ⟨401, .errorOnly "App not installed / token missing. Visit /auth once.", []⟩ :=
  missing_token_401 ⟨none, none, none⟩ digestStub [] (some sampleBody) emptyStore
    (.error "boom") (Or.inl (by decide)) (by decide)

/-- **C2**: with the earlier gates passed (proxy gate and token in
`server.js`, env vars in `part_000`), a request body missing the phone or
`product.title` or `product.url` — including an absent body — yields
`400 {error: "Missing phone or product data"}` in both variants, with no
outbound GraphQL call, and `server.js` leaves the token store unchanged. -/
theorem missing_fields_400 (env : ProxyEnv) (env2 : StaticEnv)
    (digest : String → String → String) (query : List (String × String))
    (body : Option ReqBody) (fs : FileStore)
    (platform : Except String PlatformJson)
    (hgate : env.VERIFY_PROXY ≠ some "true"
      ∨ verifyAppProxy digest query env.API_SECRET = .ok true)
    (htok : truthyS ((loadToken fs).bind Token.access_token) = true)
    (henv2 : truthyS env2.SHOP = true ∧ truthyS env2.ADMIN_TOKEN = true)
    (hbad : (!truthyS (body.getD ⟨none, none, none⟩).phone
        || !truthyS ((body.getD ⟨none, none, none⟩).product.bind ProductData.title)
        || !truthyS ((body.getD ⟨none, none, none⟩).product.bind ProductData.url))
        = true) :
    (customizationRequest_server env digest query body fs platform).1
        = ⟨400, .errorOnly "Missing phone or product data", []⟩
      ∧ (customizationRequest_server env digest query body fs platform).2 = fs
      ∧ customizationRequest_part000 env2 body platform
          = ⟨400, .errorOnly "Missing phone or product data", []⟩ := by
  refine ⟨?_, ?_, ?_⟩
  · unfold customizationRequest_server customizationRequestCore_server
    rcases hgate with hv | hap
    · rw [if_neg hv]
      simp [htok, hbad]
    · by_cases hv : env.VERIFY_PROXY = some "true"
      · rw [if_pos hv, hap]
        simp [htok, hbad]
      · rw [if_neg hv]
        simp [htok, hbad]
  · unfold customizationRequest_server
    repeat' split
    all_goals rfl
  · unfold customizationRequest_part000
    simp [henv2.1, henv2.2, hbad]

/-- Witness for `missing_fields_400`: absent body against a stored token. -/
theorem missing_fields_400_witness :
    (customizationRequest_server ⟨none, none, none⟩ digestStub [] none
        (saveToken sampleToken emptyStore) (.error "boom")).1
        = ⟨400, .errorOnly "Missing phone or product data", []⟩
      ∧ (customizationRequest_server ⟨none, none, none⟩ digestStub [] none
          (saveToken sampleToken emptyStore) (.error "boom")).2
          = saveToken sampleToken emptyStore
      ∧ customizationRequest_part000 ⟨some "a0pyr1-ce.myshopify.com", some "shpat_x"⟩
          none (.error "boom")
          = ⟨400, .errorOnly "Missing phone or product data", []⟩ :=
  missing_fields_400 ⟨none, none, none⟩ ⟨some "a0pyr1-ce.myshopify.com", some "shpat_x"⟩
    digestStub [] none (saveToken sampleToken emptyStore) (.error "boom")
    (Or.inl (by decide)) (by decide) ⟨by decide, by decide⟩ (by decide)

/-- **C8**: a platform response whose `draftOrderCreate` payload carries a
non-empty `userErrors` array makes both handlers answer 400 with the first
user error's message — `server.js` additionally echoing the whole array as
`raw` — and never 200. -/
theorem user_errors_400 (env : ProxyEnv) (env2 : StaticEnv)
    (digest : String → String → String) (query : List (String × String))
    (body : Option ReqBody) (fs : FileStore) (json : PlatformJson)
    (p : DraftOrderCreatePayload) (e : UserError) (es : List UserError)
    (hgate : env.VERIFY_PROXY ≠ some "true"
      ∨ verifyAppProxy digest query env.API_SECRET = .ok true)
    (htok : truthyS ((loadToken fs).bind Token.access_token) = true)
    (henv2 : truthyS env2.SHOP = true ∧ truthyS env2.ADMIN_TOKEN = true)
    (hgood : (!truthyS (body.getD ⟨none, none, none⟩).phone
        || !truthyS ((body.getD ⟨none, none, none⟩).product.bind ProductData.title)
        || !truthyS ((body.getD ⟨none, none, none⟩).product.bind ProductData.url))
        = false)
    (hjson : json.data.bind PlatformData.draftOrderCreate = some p)
    (herr : p.userErrors = some (e :: es)) :
    (customizationRequest_server env digest query body fs (.ok json)).1.status = 400
      ∧ (customizationRequest_server env digest query body fs (.ok json)).1.body
          = .errorRaw e.message (e :: es)
      ∧ (customizationRequest_server env digest query body fs (.ok json)).1.status ≠ 200
      ∧ (customizationRequest_part000 env2 body (.ok json)).status = 400
      ∧ (customizationRequest_part000 env2 body (.ok json)).body
          = .errorOnly e.message
      ∧ (customizationRequest_part000 env2 body (.ok json)).status ≠ 200 := by
  have hs : (customizationRequest_server env digest query body fs (.ok json)).1
      = ⟨400, .errorRaw e.message (e :: es),
          [{ url := "https://"
                ++ interp ((loadToken fs).getD ⟨none, none, none, none⟩).shop
                ++ "/admin/api/" ++ jsOrS env.API_VER "2025-04" ++ "/graphql.json"
            , accessToken := ((loadToken fs).getD ⟨none, none, none, none⟩).access_token.getD ""
            , query := draftOrderCreateQuery
            , input := buildDraftInput_server (body.getD ⟨none, none, none⟩).phone
                ((body.getD ⟨none, none, none⟩).product.getD ⟨none, none⟩)
                (body.getD ⟨none, none, none⟩).customer }]⟩ := by
    unfold customizationRequest_server customizationRequestCore_server
    rcases hgate with hv | hap
    · rw [if_neg hv]
      simp [htok, hgood, hjson, herr]
    · by_cases hv : env.VERIFY_PROXY = some "true"
      · rw [if_pos hv, hap]
        simp [htok, hgood, hjson, herr]
      · rw [if_neg hv]
        simp [htok, hgood, hjson, herr]
  have hp : customizationRequest_part000 env2 body (.ok json)
      = ⟨400, .errorOnly e.message,
          [{ url := "https://" ++ interp env2.SHOP ++ "/admin/api/2025-04/graphql.json"
            , accessToken := env2.ADMIN_TOKEN.getD ""
            , query := draftOrderCreateQuery
            , input := buildDraftInput_part000 (body.getD ⟨none, none, none⟩).phone
                ((body.getD ⟨none, none, none⟩).product.getD ⟨none, none⟩)
                (body.getD ⟨none, none, none⟩).customer }]⟩ := by
    unfold customizationRequest_part000
    simp [henv2.1, henv2.2, hgood, hjson, herr]
  rw [hs, hp]
  refine ⟨rfl, rfl, by simp, rfl, rfl, by simp⟩

/-- Witness for `user_errors_400`: a concrete user error. -/
theorem user_errors_400_witness :
    (customizationRequest_server ⟨none, none, none⟩ digestStub []
        (some sampleBody) (saveToken sampleToken emptyStore)
        (.ok ⟨some ⟨some ⟨none, some [⟨none, "Line item price must be non-negative"⟩]⟩⟩⟩)).1.status
        = 400
      ∧ (customizationRequest_server ⟨none, none, none⟩ digestStub []
          (some sampleBody) (saveToken sampleToken emptyStore)
          (.ok ⟨some ⟨some ⟨none, some [⟨none, "Line item price must be non-negative"⟩]⟩⟩⟩)).1.body
          = .errorRaw "Line item price must be non-negative"
              [⟨none, "Line item price must be non-negative"⟩]
      ∧ (customizationRequest_server ⟨none, none, none⟩ digestStub []
          (some sampleBody) (saveToken sampleToken emptyStore)
          (.ok ⟨some ⟨some ⟨none, some [⟨none, "Line item price must be non-negative"⟩]⟩⟩⟩)).1.status
          ≠ 200
      ∧ (customizationRequest_part000 ⟨some "a0pyr1-ce.myshopify.com", some "shpat_x"⟩
          (some sampleBody)
          (.ok ⟨some ⟨some ⟨none, some [⟨none, "Line item price must be non-negative"⟩]⟩⟩⟩)).status
          = 400
      ∧ (customizationRequest_part000 ⟨some "a0pyr1-ce.myshopify.com", some "shpat_x"⟩
          (some sampleBody)
          (.ok ⟨some ⟨some ⟨none, some [⟨none, "Line item price must be non-negative"⟩]⟩⟩⟩)).body
          = .errorOnly "Line item price must be non-negative"
      ∧ (customizationRequest_part000 ⟨some "a0pyr1-ce.myshopify.com", some "shpat_x"⟩
          (some sampleBody)
          (.ok ⟨some ⟨some ⟨none, some [⟨none, "Line item price must be non-negative"⟩]⟩⟩⟩)).status
          ≠ 200 :=
  user_errors_400 ⟨none, none, none⟩ ⟨some "a0pyr1-ce.myshopify.com", some "shpat_x"⟩
    digestStub [] (some sampleBody) (saveToken sampleToken emptyStore)
    ⟨some ⟨some ⟨none, some [⟨none, "Line item price must be non-negative"⟩]⟩⟩⟩
    ⟨none, some [⟨none, "Line item price must be non-negative"⟩]⟩
    ⟨none, "Line item price must be non-negative"⟩ []
    (Or.inl (by decide)) (by decide) ⟨by decide, by decide⟩ (by decide) (by decide) rfl

/-- **C7**: every handled submission issues at most one outbound GraphQL
mutation in either variant, and a failed outcome — a thrown platform call or
a `userErrors` response — never yields a 200 (no retry, no queueing). -/
theorem at_most_one_mutation (env : ProxyEnv) (env2 : StaticEnv)
    (digest : String → String → String) (query : List (String × String))
    (body : Option ReqBody) (fs : FileStore)
    (platform : Except String PlatformJson) :
    ((customizationRequest_server env digest query body fs platform).1.calls.length ≤ 1
      ∧ (customizationRequest_part000 env2 body platform).calls.length ≤ 1)
    ∧ (∀ e, platform = .error e →
        (customizationRequest_server env digest query body fs platform).1.status ≠ 200
          ∧ (customizationRequest_part000 env2 body platform).status ≠ 200)
    ∧ (∀ json p e es, platform = .ok json →
        json.data.bind PlatformData.draftOrderCreate = some p →
        p.userErrors = some (e :: es) →
        (customizationRequest_server env digest query body fs platform).1.status ≠ 200
          ∧ (customizationRequest_part000 env2 body platform).status ≠ 200) := by
  refine ⟨⟨?_, ?_⟩, ?_, ?_⟩
  · unfold customizationRequest_server customizationRequestCore_server
    repeat' split
    all_goals try simp
    all_goals split_ifs <;> simp
  · unfold customizationRequest_part000
    repeat' split
    all_goals try simp
    all_goals split_ifs <;> simp
  · rintro e rfl
    constructor
    · unfold customizationRequest_server customizationRequestCore_server
      repeat' split
      all_goals try simp_all
      all_goals split_ifs <;> simp_all
    · unfold customizationRequest_part000
      repeat' split
      all_goals try simp_all
      all_goals split_ifs <;> simp_all
  · rintro json p e es rfl hjson herr
    constructor
    · unfold customizationRequest_server customizationRequestCore_server
      repeat' split
      all_goals try simp_all
      all_goals split_ifs <;> try simp_all
      all_goals obtain ⟨a, ha, hac⟩ := Option.bind_eq_some.mp hjson
      all_goals simp_all
    · unfold customizationRequest_part000
      repeat' split
      all_goals try simp_all
      all_goals split_ifs <;> try simp_all
      all_goals obtain ⟨a, ha, hac⟩ := Option.bind_eq_some.mp hjson
      all_goals simp_all

/-- Witness for `at_most_one_mutation`: a thrown platform call. -/
theorem at_most_one_mutation_witness :
    ((customizationRequest_server ⟨none, none, none⟩ digestStub []
        (some sampleBody) (saveToken sampleToken emptyStore)
        (.error "fetch failed")).1.calls.length ≤ 1
      ∧ (customizationRequest_part000 ⟨some "a0pyr1-ce.myshopify.com", some "shpat_x"⟩
          (some sampleBody) (.error "fetch failed")).calls.length ≤ 1)
    ∧ ((customizationRequest_server ⟨none, none, none⟩ digestStub []
          (some sampleBody) (saveToken sampleToken emptyStore)
          (.error "fetch failed")).1.status ≠ 200
        ∧ (customizationRequest_part000 ⟨some "a0pyr1-ce.myshopify.com", some "shpat_x"⟩
            (some sampleBody) (.error "fetch failed")).status ≠ 200) :=
  ⟨(at_most_one_mutation ⟨none, none, none⟩
      ⟨some "a0pyr1-ce.myshopify.com", some "shpat_x"⟩ digestStub []
      (some sampleBody) (saveToken sampleToken emptyStore) (.error "fetch failed")).1,
    (at_most_one_mutation ⟨none, none, none⟩
      ⟨some "a0pyr1-ce.myshopify.com", some "shpat_x"⟩ digestStub []
      (some sampleBody) (saveToken sampleToken emptyStore) (.error "fetch failed")).2.1
      "fetch failed" rfl⟩

/-- When the app-proxy gate is passed (off, or signature valid), the
`server.js` handler is its core. -/
lemma gate_passes (env : ProxyEnv) (digest : String → String → String)
    (query : List (String × String)) (body : Option ReqBody) (fs : FileStore)
    (platform : Except String PlatformJson)
    (hgate : env.VERIFY_PROXY ≠ some "true"
      ∨ verifyAppProxy digest query env.API_SECRET = .ok true) :
    (customizationRequest_server env digest query body fs platform).1
      = customizationRequestCore_server env fs body platform := by
  unfold customizationRequest_server
  rcases hgate with hv | hap
  · rw [if_neg hv]
  · by_cases hv : env.VERIFY_PROXY = some "true"
    · rw [if_pos hv, hap]
    · rw [if_neg hv]

/-- The draft input, spelled out field by field. -/
lemma buildDraftInput_server_explicit (ph ttl url : String)
    (customer : Option CustomerData) :
    buildDraftInput_server (some ph) ⟨some ttl, some url⟩ customer
      = { tags := ["Customization request"]
        , note := String.intercalate "\n"
            [ "Customization request"
            , "Product: " ++ ttl
            , "Link: " ++ url
            , "Phone: " ++ ph
            , match customer with
              | some c =>
                if c.logged_in then
                  "Customer: " ++ (jsOrS c.first_name "").trim ++ " "
                    ++ (jsOrS c.last_name "").trim ++ " | " ++ jsOrS c.email ""
                else "Customer: Guest (not logged in)"
              | none => "Customer: Guest (not logged in)" ]
        , lineItems :=
            [ { title := "Customization request - " ++ ttl
              , quantity := 1
              , originalUnitPrice := "0.00"
              , customAttributes :=
                  [ ⟨"Type", "Customization request"⟩
                  , ⟨"Product", ttl⟩
                  , ⟨"Product URL", url⟩
                  , ⟨"Phone", ph⟩ ] } ]
        , email := match customer with
            | some c => if c.logged_in && truthyS c.email then c.email else none
            | none => none } := by
  cases customer with
  | none => rfl
  | some c => rfl

/-- **C1**: the happy path of `server.js`: with the proxy gate passed, a
stored token carrying a non-empty access token, and a body with non-empty
phone, product title and product url, the handler issues exactly one POST to
the platform's GraphQL endpoint carrying the `draftOrderCreate` mutation
whose input has tags `["Customization request"]`, the assembled note, and a
single quantity-1 line item at price `"0.00"` with the four custom
attributes (Type, Product, Product URL, Phone); a response without user
errors yields `200 {ok: true, draft_name}` from the returned draft order. -/
theorem happy_path_server (env : ProxyEnv) (digest : String → String → String)
    (query : List (String × String)) (fs : FileStore)
    (platform : Except String PlatformJson) (b : ReqBody) (tok : Token)
    (atk ph ttl url : String)
    (hgate : env.VERIFY_PROXY ≠ some "true"
      ∨ verifyAppProxy digest query env.API_SECRET = .ok true)
    (htok : loadToken fs = some tok) (hat : tok.access_token = some atk)
    (hat' : atk ≠ "")
    (hph : b.phone = some ph) (hph' : ph ≠ "")
    (hprod : b.product = some ⟨some ttl, some url⟩)
    (httl : ttl ≠ "") (hurl : url ≠ "") :
    (customizationRequest_server env digest query (some b) fs platform).1.calls
      = [{ url := "https://" ++ interp tok.shop ++ "/admin/api/"
              ++ jsOrS env.API_VER "2025-04" ++ "/graphql.json"
          , accessToken := atk
          , query := draftOrderCreateQuery
          , input :=
              { tags := ["Customization request"]
              , note := String.intercalate "\n"
                  [ "Customization request"
                  , "Product: " ++ ttl
                  , "Link: " ++ url
                  , "Phone: " ++ ph
                  , match b.customer with
                    | some c =>
                      if c.logged_in then
                        "Customer: " ++ (jsOrS c.first_name "").trim ++ " "
                          ++ (jsOrS c.last_name "").trim ++ " | " ++ jsOrS c.email ""
                      else "Customer: Guest (not logged in)"
                    | none => "Customer: Guest (not logged in)" ]
              , lineItems :=
                  [ { title := "Customization request - " ++ ttl
                    , quantity := 1
                    , originalUnitPrice := "0.00"
                    , customAttributes :=
                        [ ⟨"Type", "Customization request"⟩
                        , ⟨"Product", ttl⟩
                        , ⟨"Product URL", url⟩
                        , ⟨"Phone", ph⟩ ] } ]
              , email := match b.customer with
                  | some c => if c.logged_in && truthyS c.email then c.email else none
                  | none => none } }]
    ∧ (∀ json, platform = .ok json →
        (match json.data.bind PlatformData.draftOrderCreate with
          | some p => p.userErrors = none ∨ p.userErrors = some []
          | none => True) →
        (customizationRequest_server env digest query (some b) fs platform).1.status = 200
          ∧ (customizationRequest_server env digest query (some b) fs platform).1.body
            = .success true (((json.data.bind PlatformData.draftOrderCreate).bind
                DraftOrderCreatePayload.draftOrder).bind DraftOrderRef.name)) := by
  have hg := gate_passes env digest query (some b) fs platform hgate
  constructor
  · rw [hg]
    unfold customizationRequestCore_server
    cases platform with
    | error e =>
      simp [htok, hat, truthyS, hat', hph, hph', hprod, httl, hurl,
        buildDraftInput_server_explicit]
    | ok json =>
      rcases hq : json.data.bind PlatformData.draftOrderCreate with _ | p
      · simp [htok, hat, truthyS, hat', hph, hph', hprod, httl, hurl, hq,
          buildDraftInput_server_explicit]
      · rcases hue : p.userErrors with _ | l
        · simp [htok, hat, truthyS, hat', hph, hph', hprod, httl, hurl, hq, hue,
            buildDraftInput_server_explicit]
        · cases l <;>
            simp [htok, hat, truthyS, hat', hph, hph', hprod, httl, hurl, hq, hue,
              buildDraftInput_server_explicit]
  · rintro json rfl hno
    rw [hg]
    unfold customizationRequestCore_server
    rcases hq : json.data.bind PlatformData.draftOrderCreate with _ | p
    · simp [htok, hat, truthyS, hat', hph, hph', hprod, httl, hurl, hq]
    · rw [hq] at hno
      rcases hno with hue | hue <;>
        simp [htok, hat, truthyS, hat', hph, hph', hprod, httl, hurl, hq, hue]

/-- Witness for `happy_path_server`: concrete token, body and a clean
platform response. -/
theorem happy_path_server_witness :
    (customizationRequest_server ⟨none, none, none⟩ digestStub []
        (some sampleBody) (saveToken sampleToken emptyStore)
        (.ok ⟨some ⟨some ⟨some ⟨some "gid://shopify/DraftOrder/1", some "#D1"⟩, none⟩⟩⟩)).1.status
        = 200
      ∧ (customizationRequest_server ⟨none, none, none⟩ digestStub []
          (some sampleBody) (saveToken sampleToken emptyStore)
          (.ok ⟨some ⟨some ⟨some ⟨some "gid://shopify/DraftOrder/1", some "#D1"⟩, none⟩⟩⟩)).1.body
          = .success true (some "#D1") :=
  (happy_path_server ⟨none, none, none⟩ digestStub []
      (saveToken sampleToken emptyStore)
      (.ok ⟨some ⟨some ⟨some ⟨some "gid://shopify/DraftOrder/1", some "#D1"⟩, none⟩⟩⟩)
      sampleBody sampleToken "shpat_sample" "+201000000000" "Ring" "https://shop/p/ring"
      (Or.inl (by decide)) (by decide) (by decide) (by decide) (by decide) (by decide)
      (by decide) (by decide) (by decide)).2
    ⟨some ⟨some ⟨some ⟨some "gid://shopify/DraftOrder/1", some "#D1"⟩, none⟩⟩⟩ rfl
    (Or.inl rfl)

/-- Exhaustive case analysis of `/auth/callback`: either the store is left
untouched and the status is an error, or the handler reached the end of the
handshake, answered 200, and saved exactly the assembled token object. -/
lemma authCallback_cases (env : CallbackEnv)
    (digest : String → String → String) (query : List (String × String))
    (exchange : Except String TokenExchange) (now : String) (fs : FileStore) :
    ((authCallback env digest query exchange now fs).status ≠ 200
        ∧ (authCallback env digest query exchange now fs).store = fs)
      ∨ ((authCallback env digest query exchange now fs).status = 200
          ∧ ∃ t, exchange = .ok t ∧ t.ok = true
            ∧ (authCallback env digest query exchange now fs).store
              = saveToken ⟨qlookup query "shop", t.access_token, t.scope, some now⟩ fs) := by
  unfold authCallback
  cases hb : (truthyS env.API_SECRET && truthyS env.API_KEY
      && truthyS env.HOST && truthyS env.SHOP) with
  | false => exact Or.inl ⟨by simp, by simp⟩
  | true =>
    cases hv : verifyHmac digest query (env.API_SECRET.getD "") with
    | error e => exact Or.inl ⟨by simp, by simp⟩
    | ok bv =>
      cases bv with
      | false => exact Or.inl ⟨by simp, by simp⟩
      | true =>
        cases hsc : (truthyS (qlookup query "shop")
            && truthyS (qlookup query "code")) with
        | false => exact Or.inl ⟨by simp [hsc], by simp [hsc]⟩
        | true =>
          cases exchange with
          | error e => exact Or.inl ⟨by simp [hsc], by simp [hsc]⟩
          | ok t =>
            cases ht : t.ok with
            | false => exact Or.inl ⟨by simp [hsc, ht], by simp [hsc, ht]⟩
            | true =>
              exact Or.inr ⟨by simp [hsc, ht], t, rfl, ht, by simp [hsc, ht]⟩

/-- **C4**: `/auth/callback` saves a token exactly when the whole one-shot
handshake succeeds: missing env vars give 500, a failed HMAC check 400, a
missing `shop` or `code` 400, a non-ok token exchange 400 — each leaving the
stored token untouched — and only the full success saves
`{shop, access_token, scope, created_at}` and answers 200. -/
theorem auth_callback_save_iff_success (env : CallbackEnv)
    (digest : String → String → String) (query : List (String × String))
    (exchange : Except String TokenExchange) (now : String) (fs : FileStore) :
    ((truthyS env.API_SECRET && truthyS env.API_KEY && truthyS env.HOST
          && truthyS env.SHOP) = false →
        authCallback env digest query exchange now fs
          = ⟨500, "Missing env vars for OAuth", fs⟩)
    ∧ ((truthyS env.API_SECRET && truthyS env.API_KEY && truthyS env.HOST
          && truthyS env.SHOP) = true →
        (verifyHmac digest query (env.API_SECRET.getD "") = .ok false →
          authCallback env digest query exchange now fs
            = ⟨400, "HMAC verification failed", fs⟩)
        ∧ (verifyHmac digest query (env.API_SECRET.getD "") = .ok true →
            ((truthyS (qlookup query "shop")
                && truthyS (qlookup query "code")) = false →
              authCallback env digest query exchange now fs
                = ⟨400, "Missing shop or code", fs⟩)
            ∧ ((truthyS (qlookup query "shop")
                  && truthyS (qlookup query "code")) = true →
                (∀ t, exchange = .ok t → t.ok = false →
                  authCallback env digest query exchange now fs
                    = ⟨400, "Token exchange failed: " ++ t.stringified, fs⟩)
                ∧ (∀ t, exchange = .ok t → t.ok = true →
                    authCallback env digest query exchange now fs
                      = ⟨200,
                          "✅ App installed and token saved. You can close this tab.",
                          saveToken ⟨qlookup query "shop", t.access_token,
                            t.scope, some now⟩ fs⟩))))
    ∧ ((authCallback env digest query exchange now fs).status ≠ 200 →
        (authCallback env digest query exchange now fs).store = fs)
    ∧ ((authCallback env digest query exchange now fs).status = 200 →
        ∃ t, exchange = .ok t ∧ t.ok = true
          ∧ (authCallback env digest query exchange now fs).store
            = saveToken ⟨qlookup query "shop", t.access_token, t.scope,
                some now⟩ fs) := by
  refine ⟨?_, ?_, ?_, ?_⟩
  · intro h
    simp [authCallback, h]
  · intro henv
    constructor
    · intro hh
      simp [authCallback, henv, hh]
    · intro hh
      constructor
      · intro hsc
        simp [authCallback, henv, hh, hsc]
      · intro hsc
        constructor
        · rintro t rfl ht
          simp [authCallback, henv, hh, hsc, ht]
        · rintro t rfl ht
          simp [authCallback, henv, hh, hsc, ht]
  · intro h
    rcases authCallback_cases env digest query exchange now fs with ⟨-, hst⟩ | ⟨h200, -⟩
    · exact hst
    · exact absurd h200 h
  · intro h
    rcases authCallback_cases env digest query exchange now fs with ⟨hne, -⟩ | ⟨-, hex⟩
    · exact absurd h hne
    · exact hex

/-- Witness for `auth_callback_save_iff_success`: a full successful
handshake (the query's hmac matching the stub digest) saves the token. -/
theorem auth_callback_save_iff_success_witness :
    authCallback
        ⟨some "secret", some "key", some "https://host", some "a0pyr1-ce.myshopify.com"⟩
        digestStub
        [("hmac", digestStub "" ""), ("shop", "a0pyr1-ce.myshopify.com"), ("code", "abc")]
        (.ok ⟨true, some "shpat_new", some "write_draft_orders", "x"⟩)
        "2025-01-01T00:00:00.000Z" emptyStore
      = ⟨200, "✅ App installed and token saved. You can close this tab.",
          saveToken
            ⟨some "a0pyr1-ce.myshopify.com", some "shpat_new",
              some "write_draft_orders", some "2025-01-01T00:00:00.000Z"⟩
            emptyStore⟩ :=
  ((((auth_callback_save_iff_success
        ⟨some "secret", some "key", some "https://host", some "a0pyr1-ce.myshopify.com"⟩
        digestStub
        [("hmac", digestStub "" ""), ("shop", "a0pyr1-ce.myshopify.com"), ("code", "abc")]
        (.ok ⟨true, some "shpat_new", some "write_draft_orders", "x"⟩)
        "2025-01-01T00:00:00.000Z" emptyStore).2.1 (by decide)).2 rfl).2
      (by decide)).2 ⟨true, some "shpat_new", some "write_draft_orders", "x"⟩ rfl rfl

/-- **C9** counterexample: `?hmac=` (present but empty) makes `verifyHmac`
return the boolean `false` although the hmac value's UTF-8 byte length is 0,
not 64, and `/auth/callback` then answers 400 ("HMAC verification failed"),
not 500. -/
theorem verifyHmac_partiality_counterexample :
    verifyHmac digestStub
        [("hmac", ""), ("shop", "a0pyr1-ce.myshopify.com"), ("code", "abc")] "secret"
        = .ok false
      ∧ ("" : String).utf8ByteSize ≠ 64
      ∧ (authCallback
            ⟨some "secret", some "key", some "https://host", some "a0pyr1-ce.myshopify.com"⟩
            digestStub
            [("hmac", ""), ("shop", "a0pyr1-ce.myshopify.com"), ("code", "abc")]
            (.ok ⟨true, some "shpat_new", some "write_draft_orders", "x"⟩)
            "2025-01-01T00:00:00.000Z" emptyStore).status = 400 :=
  ⟨rfl, by decide, rfl⟩

/-- **C9** (amended): when the query carries a *non-empty* hmac value whose
UTF-8 byte length is not 64, `crypto.timingSafeEqual` throws, so
`verifyHmac` does not return a boolean and `/auth/callback` (with its env
vars set) answers 500 "Server error: ..." leaving the token store untouched;
`verifyHmac` returns a boolean only when the hmac value is empty or has byte
length exactly 64. -/
theorem verifyHmac_length_partiality (digest : String → String → String)
    (hd : ∀ s m, (digest s m).utf8ByteSize = 64)
    (query : List (String × String)) (secret : String) (env : CallbackEnv)
    (exchange : Except String TokenExchange) (now : String) (fs : FileStore)
    (h : String) (hh : qlookup query "hmac" = some h) :
    (∀ b, verifyHmac digest query secret = .ok b →
        h = "" ∨ h.utf8ByteSize = 64)
    ∧ (h ≠ "" → h.utf8ByteSize ≠ 64 →
        verifyHmac digest query secret
            = .error "RangeError: Input buffers must have the same byte length"
        ∧ ((truthyS env.API_SECRET && truthyS env.API_KEY && truthyS env.HOST
              && truthyS env.SHOP) = true →
            (authCallback env digest query exchange now fs).status = 500
            ∧ (authCallback env digest query exchange now fs).text
                = "Server error: RangeError: Input buffers must have the same byte length"
            ∧ (authCallback env digest query exchange now fs).store = fs)) := by
  constructor
  · intro b hb
    by_cases hemp : h = ""
    · exact Or.inl hemp
    · right
      unfold verifyHmac at hb
      simp only [hh] at hb
      rw [if_neg hemp] at hb
      split at hb
      · rename_i hcond
        rw [hd] at hcond
        exact hcond.symm
      · exact absurd hb (by simp)
  · intro hne hlen
    have herr : ∀ sec, verifyHmac digest query sec
        = .error "RangeError: Input buffers must have the same byte length" := by
      intro sec
      unfold verifyHmac
      simp only [hh]
      rw [if_neg hne]
      rw [hd, if_neg (fun hc => hlen hc.symm)]
    refine ⟨herr secret, fun henv => ?_⟩
    have h500 : authCallback env digest query exchange now fs
        = ⟨500, "Server error: "
              ++ "RangeError: Input buffers must have the same byte length", fs⟩ := by
      simp [authCallback, henv, herr (env.API_SECRET.getD "")]
    rw [h500]
    exact ⟨rfl, rfl, rfl⟩

/-- Witness for `verifyHmac_length_partiality`: a two-byte hmac value. -/
theorem verifyHmac_length_partiality_witness :
    verifyHmac digestStub [("hmac", "xx")] "sec"
        = .error "RangeError: Input buffers must have the same byte length"
      ∧ (authCallback ⟨some "sec", some "key", some "https://host", some "shop"⟩
          digestStub [("hmac", "xx")] (.ok ⟨true, none, none, "x"⟩) "now"
          emptyStore).status = 500 :=
  ⟨((verifyHmac_length_partiality digestStub (fun _ _ => rfl) [("hmac", "xx")] "sec"
        ⟨some "sec", some "key", some "https://host", some "shop"⟩
        (.ok ⟨true, none, none, "x"⟩) "now" emptyStore "xx" rfl).2
      (by decide) (by decide)).1,
    (((verifyHmac_length_partiality digestStub (fun _ _ => rfl) [("hmac", "xx")] "sec"
        ⟨some "sec", some "key", some "https://host", some "shop"⟩
        (.ok ⟨true, none, none, "x"⟩) "now" emptyStore "xx" rfl).2
      (by decide) (by decide)).2 (by decide)).1⟩

/-- The two variants assemble the same `draftOrderCreate` input (the
building code is textually identical in both files). -/
lemma buildDraftInput_eq (phone : Option String) (product : ProductData)
    (customer : Option CustomerData) :
    buildDraftInput_server phone product customer
      = buildDraftInput_part000 phone product customer := by
  unfold buildDraftInput_server buildDraftInput_part000
    customerNoteLine_server customerNoteLine_part000
  rfl

/-- **C5** counterexample: on a user-error response the two variants do not
return the same body — `server.js` echoes the `userErrors` array as `raw`,
`part_000` does not. -/
theorem variants_same_body_counterexample :
    (customizationRequest_server ⟨none, none, none⟩ digestStub []
        (some sampleBody) (saveToken sampleToken emptyStore)
        (.ok ⟨some ⟨some ⟨none, some [⟨none, "bad"⟩]⟩⟩⟩)).1.body
      ≠ (customizationRequest_part000
          ⟨some "a0pyr1-ce.myshopify.com", some "shpat_x"⟩ (some sampleBody)
          (.ok ⟨some ⟨some ⟨none, some [⟨none, "bad"⟩]⟩⟩⟩)).body := by
  decide

/-- **C5** (amended): on the submission path the two variants construct the
same `draftOrderCreate` input and answer with the same status and — up to
`server.js`'s extra `raw` echo on the user-error response — the same body. -/
theorem variants_equiv_up_to_raw (env : ProxyEnv) (env2 : StaticEnv)
    (digest : String → String → String) (query : List (String × String))
    (body : Option ReqBody) (fs : FileStore)
    (platform : Except String PlatformJson)
    (hgate : env.VERIFY_PROXY ≠ some "true"
      ∨ verifyAppProxy digest query env.API_SECRET = .ok true)
    (htok : truthyS ((loadToken fs).bind Token.access_token) = true)
    (henv2 : truthyS env2.SHOP = true ∧ truthyS env2.ADMIN_TOKEN = true) :
    (customizationRequest_server env digest query body fs platform).1.status
        = (customizationRequest_part000 env2 body platform).status
      ∧ (customizationRequest_part000 env2 body platform).body
          = (customizationRequest_server env digest query body fs platform).1.body.stripRaw
      ∧ (customizationRequest_server env digest query body fs platform).1.calls.map
            GraphQLCall.input
          = (customizationRequest_part000 env2 body platform).calls.map
              GraphQLCall.input := by
  rw [gate_passes env digest query body fs platform hgate]
  unfold customizationRequestCore_server customizationRequest_part000
  cases hbad : (!truthyS (body.getD ⟨none, none, none⟩).phone
      || !truthyS ((body.getD ⟨none, none, none⟩).product.bind ProductData.title)
      || !truthyS ((body.getD ⟨none, none, none⟩).product.bind ProductData.url)) with
  | true =>
    simp [htok, henv2.1, henv2.2, hbad, RespBody.stripRaw]
  | false =>
    cases platform with
    | error e =>
      simp [htok, henv2.1, henv2.2, hbad, buildDraftInput_eq, RespBody.stripRaw]
    | ok json =>
      rcases hq : json.data.bind PlatformData.draftOrderCreate with _ | p
      · simp [htok, henv2.1, henv2.2, hbad, hq, buildDraftInput_eq, RespBody.stripRaw]
      · rcases hue : p.userErrors with _ | l
        · simp [htok, henv2.1, henv2.2, hbad, hq, hue, buildDraftInput_eq,
            RespBody.stripRaw]
        · cases l <;>
            simp [htok, henv2.1, henv2.2, hbad, hq, hue, buildDraftInput_eq,
              RespBody.stripRaw]

/-- Witness for `variants_equiv_up_to_raw`: a thrown platform call. -/
theorem variants_equiv_up_to_raw_witness :
    (customizationRequest_server ⟨none, none, none⟩ digestStub []
          (some sampleBody) (saveToken sampleToken emptyStore) (.error "boom")).1.status
        = (customizationRequest_part000
            ⟨some "a0pyr1-ce.myshopify.com", some "shpat_x"⟩ (some sampleBody)
            (.error "boom")).status
      ∧ (customizationRequest_part000
            ⟨some "a0pyr1-ce.myshopify.com", some "shpat_x"⟩ (some sampleBody)
            (.error "boom")).body
          = (customizationRequest_server ⟨none, none, none⟩ digestStub []
              (some sampleBody) (saveToken sampleToken emptyStore)
              (.error "boom")).1.body.stripRaw
      ∧ (customizationRequest_server ⟨none, none, none⟩ digestStub []
            (some sampleBody) (saveToken sampleToken emptyStore)
            (.error "boom")).1.calls.map GraphQLCall.input
          = (customizationRequest_part000
              ⟨some "a0pyr1-ce.myshopify.com", some "shpat_x"⟩ (some sampleBody)
              (.error "boom")).calls.map GraphQLCall.input :=
  variants_equiv_up_to_raw ⟨none, none, none⟩
    ⟨some "a0pyr1-ce.myshopify.com", some "shpat_x"⟩ digestStub []
    (some sampleBody) (saveToken sampleToken emptyStore) (.error "boom")
    (Or.inl (by decide)) (by decide) ⟨by decide, by decide⟩
